import Mathlib

/-!
Shallow embedding of the register-protocol core of the isl12020 RTC drivers
(`src/rtc-isl12020.c`, newer variant, and `src/rtc-isl12020m.c`, older
variant).  Register values are bytes delivered by an 8-bit regmap channel;
machine integers are modelled as `Nat`/`Int` with explicit masking where the
C code masks.
-/

/-! ### Constants from the source headers -/

def MASK3BITS : Nat := 7
def MASK4BITS : Nat := 15
def MASK5BITS : Nat := 31
def MASK6BITS : Nat := 63
def MASK7BITS : Nat := 127

def CENTURY_LEN : Nat := 100
def MONTH_OFFSET : Nat := 1

def MILLI_DEGREE_CELCIUS : Int := 1000
/-- `CELCIUS0` from `rtc-isl12020.c` (369 * MILLI_DEGREE_CELCIUS). -/
def CELCIUS0 : Int := 369 * MILLI_DEGREE_CELCIUS
/-- `CELCIUS0_M` from `rtc-isl12020.c` (273 * MILLI_DEGREE_CELCIUS); the
constant named `CELCIUS0` in `rtc-isl12020m.c` has this same value. -/
def CELCIUS0_M : Int := 273 * MILLI_DEGREE_CELCIUS

def FREQ_OUT_MODE_MAX : Nat := 15

def ISL_REG_RTC_SC : Nat := 0x00
def ISL_REG_RTC_MN : Nat := 0x01
def ISL_REG_RTC_HR : Nat := 0x02
def ISL_REG_RTC_DT : Nat := 0x03
def ISL_REG_RTC_MO : Nat := 0x04
def ISL_REG_RTC_YR : Nat := 0x05
def ISL_REG_RTC_DW : Nat := 0x06
def ISL_REG_CSR_SR : Nat := 0x07
def ISL_REG_CSR_INT : Nat := 0x08
def ISL_REG_CSR_BETA : Nat := 0x0D
def ISL_REG_TEMP_TKOL : Nat := 0x28
def ISL_REG_TEMP_TKOM : Nat := 0x29

def ISL_BIT_RTC_HR_MIL : Nat := 128
def ISL_BIT_CSR_SR_OSCF : Nat := 128
def ISL_BIT_CSR_SR_RTCF : Nat := 1
def ISL_BIT_CSR_INT_WRTC : Nat := 64
def ISL_BIT_CSR_INT_FOBATB : Nat := 16
def ISL_BIT_CSR_BETA_TSE : Nat := 128
def ISL_BIT_CSR_BETA_BTSE : Nat := 64
def ISL_BIT_CSR_BETA_BTSR : Nat := 32

/-- Linux error number `EOPNOTSUPP` (the drivers return its negation). -/
def EOPNOTSUPP : Int := 95
/-- Linux error number `ERANGE` (the drivers return its negation). -/
def ERANGE : Int := 34

/-! ### BCD helpers from `include/linux/bcd.h` -/

/-- `bcd2bin(x) = ((x) & 0x0f) + ((x) >> 4) * 10`. -/
def bcd2bin (v : Nat) : Nat := (v &&& 0x0f) + (v >>> 4) * 10

/-- `bin2bcd(x) = (((x) / 10) << 4) + (x) % 10`. -/
def bin2bcd (v : Nat) : Nat := ((v / 10) <<< 4) + v % 10

/-! ### Time codec (`isl12020_rtc_ops_set_time` / `isl12020_rtc_ops_read_time`) -/

/-- The fields of `struct rtc_time` used by the drivers.  As in Linux,
`tm_mon` is zero-based and `tm_year` counts years since 1900 (so the chip's
2000-2099 window is `tm_year` 100-199). -/
structure RtcTime where
  tm_sec : Nat
  tm_min : Nat
  tm_hour : Nat
  tm_mday : Nat
  tm_mon : Nat
  tm_year : Nat
  tm_wday : Nat
deriving Repr, DecidableEq

/-- The 7-byte RTC register block (offsets 0x00-0x06). -/
structure RegBlock where
  sc : Nat
  mn : Nat
  hr : Nat
  dt : Nat
  mo : Nat
  yr : Nat
  dw : Nat
deriving Repr, DecidableEq

/-- Register block built by `isl12020_rtc_ops_set_time` before the bulk
write (the field-packing lines of `src/rtc-isl12020.c:509-515`). -/
def isl12020_encode_time (tm : RtcTime) : RegBlock :=
  { sc := bin2bcd tm.tm_sec
    mn := bin2bcd tm.tm_min
    hr := bin2bcd tm.tm_hour ||| ISL_BIT_RTC_HR_MIL
    dt := bin2bcd tm.tm_mday
    mo := bin2bcd (tm.tm_mon + MONTH_OFFSET)
    yr := bin2bcd (tm.tm_year % CENTURY_LEN)
    dw := tm.tm_wday &&& MASK3BITS }

/-- Field unpacking performed by `isl12020_rtc_ops_read_time` on the bytes
returned by the bulk read (`src/rtc-isl12020.c:486-492`). -/
def isl12020_decode_time (b : RegBlock) : RtcTime :=
  { tm_sec := bcd2bin (b.sc &&& MASK7BITS)
    tm_min := bcd2bin (b.mn &&& MASK7BITS)
    tm_hour := bcd2bin (b.hr &&& MASK6BITS)
    tm_mday := bcd2bin (b.dt &&& MASK6BITS)
    tm_mon := bcd2bin (b.mo &&& MASK5BITS) - MONTH_OFFSET
    tm_year := bcd2bin b.yr + CENTURY_LEN
    tm_wday := b.dw &&& MASK3BITS }

/-! Per-field round-trip facts, each checked over its full domain. -/

theorem bcd_sec_roundtrip : ∀ n, n < 60 → bcd2bin (bin2bcd n &&& MASK7BITS) = n := by decide

theorem bcd_hour_roundtrip :
    ∀ n, n < 24 → bcd2bin ((bin2bcd n ||| ISL_BIT_RTC_HR_MIL) &&& MASK6BITS) = n := by decide

theorem bcd_day_roundtrip : ∀ n, n ≤ 31 → bcd2bin (bin2bcd n &&& MASK6BITS) = n := by decide

theorem bcd_mon_roundtrip :
    ∀ n, n < 12 → bcd2bin (bin2bcd (n + MONTH_OFFSET) &&& MASK5BITS) - MONTH_OFFSET = n := by
  decide

theorem bcd_year_roundtrip : ∀ n, n < 100 → bcd2bin (bin2bcd n) = n := by decide

theorem wday_mask_roundtrip : ∀ n, n < 7 → (n &&& MASK3BITS) &&& MASK3BITS = n := by decide

/-- C1: for every calendar time in the representable domain (seconds and
minutes 0-59, hours 0-23, day-of-month 1-31, month 0-11 zero-based, year
2000-2099 i.e. `tm_year` 100-199 relative to the 1900 base with the fixed
century base 2000, weekday 0-6), decoding the 7-byte register block produced
by encoding the time yields the time again; the year is interpreted modulo
100 relative to the century base. -/
theorem isl12020_decode_encode_roundtrip (tm : RtcTime)
    (hs : tm.tm_sec < 60) (hm : tm.tm_min < 60) (hh : tm.tm_hour < 24)
    (_hd1 : 1 ≤ tm.tm_mday) (hd2 : tm.tm_mday ≤ 31) (hmo : tm.tm_mon < 12)
    (hy1 : 100 ≤ tm.tm_year) (hy2 : tm.tm_year ≤ 199) (hw : tm.tm_wday < 7) :
    isl12020_decode_time (isl12020_encode_time tm) = tm := by
  cases tm with
  | mk s mi h d mo y w =>
    simp only [isl12020_decode_time, isl12020_encode_time, RtcTime.mk.injEq] at *
    refine ⟨bcd_sec_roundtrip s hs, bcd_sec_roundtrip mi hm, bcd_hour_roundtrip h hh,
      bcd_day_roundtrip d hd2, bcd_mon_roundtrip mo hmo, ?_, wday_mask_roundtrip w hw⟩
    have hmod : y % CENTURY_LEN < 100 := Nat.mod_lt _ (by norm_num [CENTURY_LEN])
    rw [bcd_year_roundtrip _ hmod]
    simp only [CENTURY_LEN]
    omega

/-- Witness for C1 at the concrete time 2099-12-31 23:59:59, weekday 6. -/
theorem isl12020_decode_encode_roundtrip_witness :
    isl12020_decode_time (isl12020_encode_time ⟨59, 59, 23, 31, 11, 199, 6⟩) =
      ⟨59, 59, 23, 31, 11, 199, 6⟩ :=
  isl12020_decode_encode_roundtrip ⟨59, 59, 23, 31, 11, 199, 6⟩ (by decide) (by decide)
    (by decide) (by decide) (by decide) (by decide) (by decide) (by decide) (by decide)

/-! ### Register channel (regmap collaborator) and driver state -/

/-- One register access on the byte channel; the embedding logs every access
an operation performs. -/
inductive Access where
  | rd (addr : Nat)
  | wr (addr : Nat) (val : Nat)
  | bulkRd (addr : Nat) (len : Nat)
deriving Repr, DecidableEq

/-- The byte-addressed register channel.  `regs` is the current register
contents; `readErr`/`writeErr` give the transport error (0 = success) an
access to the given address returns, mirroring the regmap collaborator. -/
structure Channel where
  regs : Nat → Nat
  readErr : Nat → Int
  writeErr : Nat → Int

/-- `regmap_read`: error code and the byte read. -/
def regmap_read (ch : Channel) (addr : Nat) : Int × Nat :=
  (ch.readErr addr, ch.regs addr)

/-- `regmap_write`: on success stores the byte (the regmap is configured
with `val_bits = 8`, so the value on the bus is one byte); on failure the
register contents are unchanged. -/
def regmap_write (ch : Channel) (addr v : Nat) : Int × Channel :=
  if ch.writeErr addr = 0 then
    (0, { ch with regs := fun a => if a = addr then v % 256 else ch.regs a })
  else
    (ch.writeErr addr, ch)

/-- Two-byte little-endian `regmap_bulk_read` as used for the temperature
registers: `le16_to_cpu` of bytes at `addr`, `addr + 1`. -/
def regmap_bulk_read16 (ch : Channel) (addr : Nat) : Int × Nat :=
  (ch.readErr addr, ch.regs addr + 256 * ch.regs (addr + 1))

/-- `struct isl12020_config` of `rtc-isl12020.c`. -/
structure Isl12020Config where
  freq_out_mode : Nat
  freq_out_bat : Bool
  tse : Bool
  btse : Bool
  btsr : Bool
deriving Repr, DecidableEq

/-- The driver-state fields of `struct isl12020m_data` of `rtc-isl12020m.c`
that the configuration operations touch. -/
structure Isl12020mData where
  freq_out_mode : Nat
  freq_out : Bool
  oscf : Bool
  rtcf : Bool
  tse : Bool
  btse : Bool
  btsr : Bool
deriving Repr, DecidableEq

/-! ### ConfigController: BETA (compensation) register -/

/-- The three set-or-clear lines shared verbatim by `isl12020_set_beta` and
`isl12020m_beta`: `val = tse ? (val | TSE) : (val & ~TSE)` and likewise for
BTSE and BTSR.  Register values are bytes, so `& ~BIT` is `&&& (255 ^^^ BIT)`. -/
def isl_beta_transform (val : Nat) (tse btse btsr : Bool) : Nat :=
  let v1 := if tse then val ||| ISL_BIT_CSR_BETA_TSE
            else val &&& (255 ^^^ ISL_BIT_CSR_BETA_TSE)
  let v2 := if btse then v1 ||| ISL_BIT_CSR_BETA_BTSE
            else v1 &&& (255 ^^^ ISL_BIT_CSR_BETA_BTSE)
  if btsr then v2 ||| ISL_BIT_CSR_BETA_BTSR
  else v2 &&& (255 ^^^ ISL_BIT_CSR_BETA_BTSR)

/-- `isl12020_set_beta` (`rtc-isl12020.c:109-133`): read the BETA register;
on success write back the byte with the three bits forced to the arguments,
and only when that write succeeds update the three in-memory flags. Returns
(error, channel, config, access log). -/
def isl12020_set_beta (ch : Channel) (cfg : Isl12020Config) (tse btse btsr : Bool) :
    Int × Channel × Isl12020Config × List Access :=
  let r := regmap_read ch ISL_REG_CSR_BETA
  if r.1 = 0 then
    let v := isl_beta_transform r.2 tse btse btsr
    let w := regmap_write ch ISL_REG_CSR_BETA v
    if w.1 = 0 then
      (0, w.2, { cfg with tse := tse, btse := btse, btsr := btsr },
        [Access.rd ISL_REG_CSR_BETA, Access.wr ISL_REG_CSR_BETA v])
    else
      (w.1, w.2, cfg, [Access.rd ISL_REG_CSR_BETA, Access.wr ISL_REG_CSR_BETA v])
  else
    (r.1, ch, cfg, [Access.rd ISL_REG_CSR_BETA])

/-- `isl12020m_beta` (`rtc-isl12020m.c:259-283`): identical register logic on
the older variant's driver state. -/
def isl12020m_beta (ch : Channel) (d : Isl12020mData) (tse btse btsr : Bool) :
    Int × Channel × Isl12020mData × List Access :=
  let r := regmap_read ch ISL_REG_CSR_BETA
  if r.1 = 0 then
    let v := isl_beta_transform r.2 tse btse btsr
    let w := regmap_write ch ISL_REG_CSR_BETA v
    if w.1 = 0 then
      (0, w.2, { d with tse := tse, btse := btse, btsr := btsr },
        [Access.rd ISL_REG_CSR_BETA, Access.wr ISL_REG_CSR_BETA v])
    else
      (w.1, w.2, d, [Access.rd ISL_REG_CSR_BETA, Access.wr ISL_REG_CSR_BETA v])
  else
    (r.1, ch, d, [Access.rd ISL_REG_CSR_BETA])

/-! ### ConfigController: INT (frequency output) register -/

/-- Register transform of `isl12020_set_freq_out` (`rtc-isl12020.c:142-145`):
the FOBATB flag is a reversed bit (cleared when battery mode is enabled),
then the low 4 bits are overwritten with the masked mode. -/
def isl12020_freq_out_transform (val mode : Nat) (batmode : Bool) : Nat :=
  let v1 := if batmode then val &&& (255 ^^^ ISL_BIT_CSR_INT_FOBATB)
            else val ||| ISL_BIT_CSR_INT_FOBATB
  (v1 &&& (255 ^^^ MASK4BITS)) ||| (mode &&& MASK4BITS)

/-- Register transform of `isl12020m_set_freq_out` (`rtc-isl12020m.c:535-537`):
the older variant writes its enable flag into FOBATB directly (bit set when
the flag is true), without the inversion. -/
def isl12020m_freq_out_transform (val mode : Nat) (enable : Bool) : Nat :=
  let v1 := if enable then val ||| ISL_BIT_CSR_INT_FOBATB
            else val &&& (255 ^^^ ISL_BIT_CSR_INT_FOBATB)
  (v1 &&& (255 ^^^ MASK4BITS)) ||| (mode &&& MASK4BITS)

/-- `isl12020_set_freq_out` (`rtc-isl12020.c:135-159`): read INT register,
apply the transform, write back; only on write success store the unmasked
mode and the battery flag in memory. -/
def isl12020_set_freq_out (ch : Channel) (cfg : Isl12020Config) (mode : Nat) (batmode : Bool) :
    Int × Channel × Isl12020Config × List Access :=
  let r := regmap_read ch ISL_REG_CSR_INT
  if r.1 = 0 then
    let v := isl12020_freq_out_transform r.2 mode batmode
    let w := regmap_write ch ISL_REG_CSR_INT v
    if w.1 = 0 then
      (0, w.2, { cfg with freq_out_mode := mode, freq_out_bat := batmode },
        [Access.rd ISL_REG_CSR_INT, Access.wr ISL_REG_CSR_INT v])
    else
      (w.1, w.2, cfg, [Access.rd ISL_REG_CSR_INT, Access.wr ISL_REG_CSR_INT v])
  else
    (r.1, ch, cfg, [Access.rd ISL_REG_CSR_INT])

/-- `isl12020m_set_freq_out` (`rtc-isl12020m.c:528-551`). -/
def isl12020m_set_freq_out (ch : Channel) (d : Isl12020mData) (mode : Nat) (enable : Bool) :
    Int × Channel × Isl12020mData × List Access :=
  let r := regmap_read ch ISL_REG_CSR_INT
  if r.1 = 0 then
    let v := isl12020m_freq_out_transform r.2 mode enable
    let w := regmap_write ch ISL_REG_CSR_INT v
    if w.1 = 0 then
      (0, w.2, { d with freq_out_mode := mode, freq_out := enable },
        [Access.rd ISL_REG_CSR_INT, Access.wr ISL_REG_CSR_INT v])
    else
      (w.1, w.2, d, [Access.rd ISL_REG_CSR_INT, Access.wr ISL_REG_CSR_INT v])
  else
    (r.1, ch, d, [Access.rd ISL_REG_CSR_INT])

/-! ### TemperatureReader -/

/-- The linear transform applied to the raw code
(`val *= MILLI_DEGREE_CELCIUS / 2; val -= offset`). -/
def isl_temp_transform (offset : Int) (raw : Nat) : Int :=
  (raw : Int) * (MILLI_DEGREE_CELCIUS / 2) - offset

/-- `isl12020_read_temp` (`rtc-isl12020.c:161-181`): returns `-EOPNOTSUPP`
without touching the channel unless the TSE flag is set; otherwise 2-byte
little-endian bulk read of TKOL/TKOM and the linear transform with
`CELCIUS0_M`.  Result: (error, value if produced, access log). -/
def isl12020_read_temp (ch : Channel) (cfg : Isl12020Config) :
    Int × Option Int × List Access :=
  if cfg.tse then
    let r := regmap_bulk_read16 ch ISL_REG_TEMP_TKOL
    if r.1 = 0 then
      (0, some (isl_temp_transform CELCIUS0_M r.2), [Access.bulkRd ISL_REG_TEMP_TKOL 2])
    else
      (r.1, none, [Access.bulkRd ISL_REG_TEMP_TKOL 2])
  else
    (-EOPNOTSUPP, none, [])

/-- `isl12020m_read_temp` (`rtc-isl12020m.c:285-303`): same observable
behaviour on the older variant's state (its `CELCIUS0` equals `CELCIUS0_M`). -/
def isl12020m_read_temp (ch : Channel) (d : Isl12020mData) :
    Int × Option Int × List Access :=
  if d.tse then
    let r := regmap_bulk_read16 ch ISL_REG_TEMP_TKOL
    if r.1 = 0 then
      (0, some (isl_temp_transform CELCIUS0_M r.2), [Access.bulkRd ISL_REG_TEMP_TKOL 2])
    else
      (r.1, none, [Access.bulkRd ISL_REG_TEMP_TKOL 2])
  else
    (-EOPNOTSUPP, none, [])

/-! ### Concrete fixtures for witnesses and counterexample evaluations -/

/-- Channel with all registers 0 and every access succeeding. -/
def chOk : Channel := ⟨fun _ => 0, fun _ => 0, fun _ => 0⟩

/-- Channel on which every register read fails with -5. -/
def chReadFail : Channel := ⟨fun _ => 0, fun _ => -5, fun _ => 0⟩

/-- Channel on which every register write fails with -6. -/
def chWriteFail : Channel := ⟨fun _ => 0, fun _ => 0, fun _ => -6⟩

/-- Channel with all registers holding 0xAB and every access succeeding. -/
def chAB : Channel := ⟨fun _ => 0xAB, fun _ => 0, fun _ => 0⟩

/-- Zero-initialised `isl12020_config` (as left by `devm_kzalloc`). -/
def cfg0 : Isl12020Config := ⟨0, false, false, false, false⟩

/-- Zero-initialised `isl12020m_data` flags (as left by `devm_kzalloc`). -/
def d0 : Isl12020mData := ⟨0, false, false, false, false, false, false⟩

/-! ### C4: setCompensation is atomic with respect to failure -/

/-- C4: for both variants of the compensation setter, a failed BETA read
returns the read error with the channel and the in-memory flags unchanged
and no write attempted (the access log holds only the read); a failed write
returns the write error with the in-memory flags at their prior values; and
only a successful write updates the three flags, all together, leaving every
other in-memory field unchanged. -/
theorem isl_set_beta_error_atomic (ch : Channel) (cfg : Isl12020Config)
    (d : Isl12020mData) (tse btse btsr : Bool) :
    (ch.readErr ISL_REG_CSR_BETA ≠ 0 →
      isl12020_set_beta ch cfg tse btse btsr =
        (ch.readErr ISL_REG_CSR_BETA, ch, cfg, [Access.rd ISL_REG_CSR_BETA]) ∧
      isl12020m_beta ch d tse btse btsr =
        (ch.readErr ISL_REG_CSR_BETA, ch, d, [Access.rd ISL_REG_CSR_BETA])) ∧
    (ch.readErr ISL_REG_CSR_BETA = 0 → ch.writeErr ISL_REG_CSR_BETA ≠ 0 →
      (isl12020_set_beta ch cfg tse btse btsr).1 = ch.writeErr ISL_REG_CSR_BETA ∧
      (isl12020_set_beta ch cfg tse btse btsr).2.1 = ch ∧
      (isl12020_set_beta ch cfg tse btse btsr).2.2.1 = cfg ∧
      (isl12020m_beta ch d tse btse btsr).2.2.1 = d) ∧
    (ch.readErr ISL_REG_CSR_BETA = 0 → ch.writeErr ISL_REG_CSR_BETA = 0 →
      (isl12020_set_beta ch cfg tse btse btsr).1 = 0 ∧
      (isl12020_set_beta ch cfg tse btse btsr).2.2.1 =
        { cfg with tse := tse, btse := btse, btsr := btsr } ∧
      (isl12020m_beta ch d tse btse btsr).2.2.1 =
        { d with tse := tse, btse := btse, btsr := btsr }) := by
  refine ⟨fun hr => ?_, fun hr hw => ?_, fun hr hw => ?_⟩
  · simp [isl12020_set_beta, isl12020m_beta, regmap_read, hr]
  · simp [isl12020_set_beta, isl12020m_beta, regmap_read, regmap_write, hr, hw]
  · simp [isl12020_set_beta, isl12020m_beta, regmap_read, regmap_write, hr, hw]

/-- Witness for C4: the read-failure case at `chReadFail`, the write-failure
case at `chWriteFail`, and the success case at `chOk`, each with concrete
flag arguments. -/
theorem isl_set_beta_error_atomic_witness :
    (isl12020_set_beta chReadFail cfg0 true false true =
       (chReadFail.readErr ISL_REG_CSR_BETA, chReadFail, cfg0, [Access.rd ISL_REG_CSR_BETA])) ∧
    ((isl12020_set_beta chWriteFail cfg0 true false true).2.2.1 = cfg0) ∧
    ((isl12020_set_beta chOk cfg0 true false true).2.2.1 =
       { cfg0 with tse := true, btse := false, btsr := true }) :=
  ⟨((isl_set_beta_error_atomic chReadFail cfg0 d0 true false true).1 (by decide)).1,
   ((isl_set_beta_error_atomic chWriteFail cfg0 d0 true false true).2.1
      (by decide) (by decide)).2.2.1,
   ((isl_set_beta_error_atomic chOk cfg0 d0 true false true).2.2
      (by decide) (by decide)).2.1⟩

/-! ### C5: frame effect of the compensation setter on the BETA byte -/

set_option maxRecDepth 4096 in
theorem isl_beta_transform_lt :
    ∀ v, v < 256 → ∀ t u w : Bool, isl_beta_transform v t u w < 256 := by decide

set_option maxRecDepth 4096 in
theorem isl_beta_transform_hi_bits :
    ∀ v, v < 256 → ∀ t u w : Bool,
      (isl_beta_transform v t u w).testBit 7 = t ∧
      (isl_beta_transform v t u w).testBit 6 = u ∧
      (isl_beta_transform v t u w).testBit 5 = w := by decide

set_option maxRecDepth 4096 in
theorem isl_beta_transform_low_bits :
    ∀ v, v < 256 → ∀ t u w : Bool, ∀ i, i < 5 →
      (isl_beta_transform v t u w).testBit i = v.testBit i := by decide

/-- C5: for every prior BETA byte and every choice of the three flags, a
successful `isl12020_set_beta` leaves the register with the TSE bit (7),
BTSE bit (6) and BTSR bit (5) in exactly their requested states, and every
other bit of the byte equal to its prior value. -/
theorem isl12020_set_beta_frame (ch : Channel) (cfg : Isl12020Config)
    (tse btse btsr : Bool) (i : Nat)
    (hr : ch.readErr ISL_REG_CSR_BETA = 0) (hw : ch.writeErr ISL_REG_CSR_BETA = 0)
    (hv : ch.regs ISL_REG_CSR_BETA < 256) :
    ((isl12020_set_beta ch cfg tse btse btsr).2.1.regs ISL_REG_CSR_BETA).testBit 7 = tse ∧
    ((isl12020_set_beta ch cfg tse btse btsr).2.1.regs ISL_REG_CSR_BETA).testBit 6 = btse ∧
    ((isl12020_set_beta ch cfg tse btse btsr).2.1.regs ISL_REG_CSR_BETA).testBit 5 = btsr ∧
    (i ≠ 5 → i ≠ 6 → i ≠ 7 →
      ((isl12020_set_beta ch cfg tse btse btsr).2.1.regs ISL_REG_CSR_BETA).testBit i =
        (ch.regs ISL_REG_CSR_BETA).testBit i) := by
  have hreg : (isl12020_set_beta ch cfg tse btse btsr).2.1.regs ISL_REG_CSR_BETA =
      isl_beta_transform (ch.regs ISL_REG_CSR_BETA) tse btse btsr := by
    simp [isl12020_set_beta, regmap_read, regmap_write, hr, hw,
      Nat.mod_eq_of_lt (isl_beta_transform_lt _ hv tse btse btsr)]
  rw [hreg]
  obtain ⟨h7, h6, h5⟩ := isl_beta_transform_hi_bits _ hv tse btse btsr
  refine ⟨h7, h6, h5, fun n5 n6 n7 => ?_⟩
  rcases Nat.lt_or_ge i 8 with hi | hi
  · have hi5 : i < 5 := by omega
    exact isl_beta_transform_low_bits _ hv tse btse btsr i hi5
  · have h2i : (256 : Nat) ≤ 2 ^ i := by
      calc (256 : Nat) = 2 ^ 8 := by norm_num
      _ ≤ 2 ^ i := Nat.pow_le_pow_right (by norm_num) hi
    rw [Nat.testBit_lt_two_pow (Nat.lt_of_lt_of_le (isl_beta_transform_lt _ hv tse btse btsr) h2i),
      Nat.testBit_lt_two_pow (Nat.lt_of_lt_of_le hv h2i)]

/-- Witness for C5 at the prior byte 0xAB, flags (false, true, false) and
bit index 0. -/
theorem isl12020_set_beta_frame_witness :
    ((isl12020_set_beta chAB cfg0 false true false).2.1.regs ISL_REG_CSR_BETA).testBit 7 = false ∧
    ((isl12020_set_beta chAB cfg0 false true false).2.1.regs ISL_REG_CSR_BETA).testBit 6 = true ∧
    ((isl12020_set_beta chAB cfg0 false true false).2.1.regs ISL_REG_CSR_BETA).testBit 5 = false ∧
    (0 ≠ 5 → 0 ≠ 6 → 0 ≠ 7 →
      ((isl12020_set_beta chAB cfg0 false true false).2.1.regs ISL_REG_CSR_BETA).testBit 0 =
        (chAB.regs ISL_REG_CSR_BETA).testBit 0) :=
  isl12020_set_beta_frame chAB cfg0 false true false 0 (by decide) (by decide) (by decide)

/-! ### C7: temperature read is gated on the TSE flag -/

/-- C7: in every device state with the TSE (compensation) flag false, both
variants' temperature read return `-EOPNOTSUPP` with no value and an empty
access log, so the channel is not touched; the channel is only read when
TSE is true. -/
theorem isl_read_temp_unsupported (ch : Channel) (cfg : Isl12020Config) (d : Isl12020mData)
    (h1 : cfg.tse = false) (h2 : d.tse = false) :
    isl12020_read_temp ch cfg = (-EOPNOTSUPP, none, []) ∧
    isl12020m_read_temp ch d = (-EOPNOTSUPP, none, []) ∧
    (∀ cfg' : Isl12020Config, (isl12020_read_temp ch cfg').2.2 ≠ [] → cfg'.tse = true) := by
  refine ⟨?_, ?_, fun cfg' hne => ?_⟩
  · simp [isl12020_read_temp, h1]
  · simp [isl12020m_read_temp, h2]
  · by_contra hfalse
    simp only [Bool.not_eq_true] at hfalse
    simp [isl12020_read_temp, hfalse] at hne

/-- Witness for C7 at an all-zero channel and the default (all-off) configs. -/
theorem isl_read_temp_unsupported_witness :
    isl12020_read_temp chOk cfg0 = (-EOPNOTSUPP, none, []) ∧
    isl12020m_read_temp chOk d0 = (-EOPNOTSUPP, none, []) ∧
    (∀ cfg' : Isl12020Config, (isl12020_read_temp chOk cfg').2.2 ≠ [] → cfg'.tse = true) :=
  isl_read_temp_unsupported chOk cfg0 d0 (by decide) (by decide)

/-! ### C3: temperature conversion formula -/

set_option maxRecDepth 4096 in
theorem isl_freq_or_bat_lt :
    ∀ v, v < 256 → ∀ b : Bool,
      (if b then v &&& (255 ^^^ ISL_BIT_CSR_INT_FOBATB)
       else v ||| ISL_BIT_CSR_INT_FOBATB) < 256 := by decide

set_option maxRecDepth 4096 in
theorem isl_low_nibble_overwrite :
    ∀ x, x < 256 → ∀ k, k < 16 →
      ((x &&& (255 ^^^ MASK4BITS)) ||| k) < 256 ∧
      ((x &&& (255 ^^^ MASK4BITS)) ||| k) &&& MASK4BITS = k := by decide

/-- Raw 16-bit little-endian value of the temperature register pair. -/
def isl_temp_raw (ch : Channel) : Nat :=
  ch.regs ISL_REG_TEMP_TKOL + 256 * ch.regs (ISL_REG_TEMP_TKOL + 1)

/-- C3: with compensation enabled and a successful bulk read, the value
returned by `isl12020_read_temp` is `raw * (1000 / 2) - CELCIUS0_M` where
`CELCIUS0_M = 273000`; the raw code is below 1024 (TKOM carries only bits
0-1, so only the low 10 bits of the 16-bit read are meaningful); the
transform yields -273000 at raw 0 with the 273000 offset and 4000 at raw
746 with the variant constant `CELCIUS0 = 369000`. -/
theorem isl12020_temp_formula (ch : Channel) (cfg : Isl12020Config)
    (htse : cfg.tse = true) (hre : ch.readErr ISL_REG_TEMP_TKOL = 0)
    (hlo : ch.regs ISL_REG_TEMP_TKOL < 256) (hhi : ch.regs (ISL_REG_TEMP_TKOL + 1) < 4) :
    isl12020_read_temp ch cfg =
      (0, some (isl_temp_transform CELCIUS0_M (isl_temp_raw ch)),
        [Access.bulkRd ISL_REG_TEMP_TKOL 2]) ∧
    isl_temp_raw ch < 1024 ∧
    isl_temp_transform CELCIUS0_M 0 = -273000 ∧
    isl_temp_transform CELCIUS0 746 = 4000 ∧
    CELCIUS0_M = 273000 ∧ CELCIUS0 = 369000 := by
  refine ⟨?_, ?_, by decide, by decide, by decide, by decide⟩
  · simp [isl12020_read_temp, regmap_bulk_read16, isl_temp_raw, htse, hre]
  · simp only [isl_temp_raw]
    omega

/-- Channel holding the raw temperature code 746 (0x2EA): TKOL = 0xEA,
TKOM = 0x02. -/
def chTemp746 : Channel :=
  ⟨fun a => if a = ISL_REG_TEMP_TKOL then 0xEA
            else if a = ISL_REG_TEMP_TKOL + 1 then 0x02 else 0,
   fun _ => 0, fun _ => 0⟩

/-- Configuration with only the TSE flag set. -/
def cfgTse : Isl12020Config := ⟨0, false, true, false, false⟩

/-- Witness for C3 at the raw code 746 with compensation enabled. -/
theorem isl12020_temp_formula_witness :
    isl12020_read_temp chTemp746 cfgTse =
      (0, some (isl_temp_transform CELCIUS0_M (isl_temp_raw chTemp746)),
        [Access.bulkRd ISL_REG_TEMP_TKOL 2]) ∧
    isl_temp_raw chTemp746 < 1024 ∧
    isl_temp_transform CELCIUS0_M 0 = -273000 ∧
    isl_temp_transform CELCIUS0 746 = 4000 ∧
    CELCIUS0_M = 273000 ∧ CELCIUS0 = 369000 :=
  isl12020_temp_formula chTemp746 cfgTse (by decide) (by decide) (by decide) (by decide)

/-! ### C10: frequency-output mode masking versus the in-memory mirror -/

/-- C10: after a successful `isl12020_set_freq_out`, the low 4 bits of the
INT register equal `mode % 16` (the mode is masked before writing), while
the stored `freq_out_mode` equals the full unmasked mode; hence the
in-memory mirror equals the hardware field exactly when `mode ≤ 15`. -/
theorem isl12020_set_freq_out_mirror (ch : Channel) (cfg : Isl12020Config)
    (mode : Nat) (batmode : Bool)
    (hr : ch.readErr ISL_REG_CSR_INT = 0) (hw : ch.writeErr ISL_REG_CSR_INT = 0)
    (hreg : ch.regs ISL_REG_CSR_INT < 256) (_hmode : mode < 256) :
    ((isl12020_set_freq_out ch cfg mode batmode).2.1.regs ISL_REG_CSR_INT) &&& MASK4BITS =
      mode % 16 ∧
    (isl12020_set_freq_out ch cfg mode batmode).2.2.1.freq_out_mode = mode ∧
    (mode ≤ 15 →
      (isl12020_set_freq_out ch cfg mode batmode).2.2.1.freq_out_mode =
        ((isl12020_set_freq_out ch cfg mode batmode).2.1.regs ISL_REG_CSR_INT) &&& MASK4BITS) := by
  have hk : mode &&& MASK4BITS < 16 := by
    have := Nat.and_le_right (n := mode) (m := MASK4BITS)
    simp only [MASK4BITS] at this ⊢
    omega
  have hv1 : (if batmode then ch.regs ISL_REG_CSR_INT &&& (255 ^^^ ISL_BIT_CSR_INT_FOBATB)
              else ch.regs ISL_REG_CSR_INT ||| ISL_BIT_CSR_INT_FOBATB) < 256 :=
    isl_freq_or_bat_lt _ hreg batmode
  obtain ⟨hlt, hand⟩ := isl_low_nibble_overwrite _ hv1 _ hk
  have htr : isl12020_freq_out_transform (ch.regs ISL_REG_CSR_INT) mode batmode < 256 := hlt
  have hregs : (isl12020_set_freq_out ch cfg mode batmode).2.1.regs ISL_REG_CSR_INT =
      isl12020_freq_out_transform (ch.regs ISL_REG_CSR_INT) mode batmode := by
    simp [isl12020_set_freq_out, regmap_read, regmap_write, hr, hw, Nat.mod_eq_of_lt htr]
  have hmod : mode &&& MASK4BITS = mode % 16 := by
    have h := Nat.and_pow_two_sub_one_eq_mod mode 4
    norm_num at h
    simpa [MASK4BITS] using h
  have hcfg : (isl12020_set_freq_out ch cfg mode batmode).2.2.1.freq_out_mode = mode := by
    simp [isl12020_set_freq_out, regmap_read, regmap_write, hr, hw]
  refine ⟨?_, hcfg, fun hle => ?_⟩
  · rw [hregs]
    simpa [isl12020_freq_out_transform, hmod] using hand
  · rw [hregs, hcfg]
    have : isl12020_freq_out_transform (ch.regs ISL_REG_CSR_INT) mode batmode &&& MASK4BITS =
        mode % 16 := by
      simpa [isl12020_freq_out_transform, hmod] using hand
    rw [this, Nat.mod_eq_of_lt (by omega)]

/-- Witness for C10 at mode 20 (> 15) over the prior byte 0xAB: the hardware
nibble takes 20 % 16 = 4 while the mirror stores 20. -/
theorem isl12020_set_freq_out_mirror_witness :
    ((isl12020_set_freq_out chAB cfg0 20 true).2.1.regs ISL_REG_CSR_INT) &&& MASK4BITS =
      20 % 16 ∧
    (isl12020_set_freq_out chAB cfg0 20 true).2.2.1.freq_out_mode = 20 ∧
    (20 ≤ 15 →
      (isl12020_set_freq_out chAB cfg0 20 true).2.2.1.freq_out_mode =
        ((isl12020_set_freq_out chAB cfg0 20 true).2.1.regs ISL_REG_CSR_INT) &&& MASK4BITS) :=
  isl12020_set_freq_out_mirror chAB cfg0 20 true (by decide) (by decide) (by decide) (by decide)

/-! ### AttributeSurface store operations (post-parse logic) -/

/-- `isl12020_freq_out_store` (`rtc-isl12020.c:436-452`) after `kstrtou8`:
`parse` is the (error, value) outcome of the textual parse; in-range modes
go through `isl12020_set_freq_out`, out-of-range modes return `-ERANGE`
without touching the channel; success returns `count`. -/
def isl12020_freq_out_store (ch : Channel) (cfg : Isl12020Config)
    (parse : Int × Nat) (count : Nat) : Int × Channel × Isl12020Config × List Access :=
  if parse.1 = 0 then
    if parse.2 ≤ FREQ_OUT_MODE_MAX then
      let r := isl12020_set_freq_out ch cfg parse.2 cfg.freq_out_bat
      ((if r.1 = 0 then (count : Int) else r.1), r.2)
    else
      (-ERANGE, ch, cfg, [])
  else
    (parse.1, ch, cfg, [])

/-- `isl12020_tse_store` (`rtc-isl12020.c:309-321`) after `kstrtobool`:
`return err ? err : count`. -/
def isl12020_tse_store (ch : Channel) (cfg : Isl12020Config)
    (parse : Int × Bool) (count : Nat) : Int × Channel × Isl12020Config :=
  if parse.1 = 0 then
    let r := isl12020_set_beta ch cfg parse.2 cfg.btse cfg.btsr
    ((if r.1 = 0 then (count : Int) else r.1), r.2.1, r.2.2.1)
  else
    (parse.1, ch, cfg)

/-- `isl12020_bat_freq_out_store` (`rtc-isl12020.c:403-415`): note the
source returns `err ? err : val` — the parsed boolean (0 or 1), not
`count`, on success. -/
def isl12020_bat_freq_out_store (ch : Channel) (cfg : Isl12020Config)
    (parse : Int × Bool) (_count : Nat) : Int × Channel × Isl12020Config :=
  if parse.1 = 0 then
    let r := isl12020_set_freq_out ch cfg cfg.freq_out_mode parse.2
    ((if r.1 = 0 then (if parse.2 then (1 : Int) else 0) else r.1), r.2.1, r.2.2.1)
  else
    (parse.1, ch, cfg)

/-- `isl12020m_tse_store` (`rtc-isl12020m.c:430-443`): the older variant
parses with `sscanf` (outcome supplied as `parsedVal`), calls
`isl12020m_beta` and returns `count` unconditionally, discarding the
operation's error. -/
def isl12020m_tse_store (ch : Channel) (d : Isl12020mData)
    (parsedVal : Nat) (count : Nat) : Int × Channel × Isl12020mData :=
  let r := if parsedVal ≠ 0 then isl12020m_beta ch d true d.btse d.btsr
           else isl12020m_beta ch d false d.btse d.btsr
  ((count : Int), r.2.1, r.2.2.1)

/-! ### Probe-time configuration establishment -/

/-- Startup-configuration device properties consulted by the probes:
presence flags for the three compensation enables, the frequency-output
boolean property ("battery-frequency-output-enable" in `rtc-isl12020.c`,
"frequency-output-enable" in `rtc-isl12020m.c`), and the optional
"frequency-output-mode" value. -/
structure Props where
  tse_present : Bool
  btse_present : Bool
  btsr_present : Bool
  freq_flag_present : Bool
  freq_mode : Option Nat
deriving Repr, DecidableEq

/-- No startup configuration present. -/
def noProps : Props := ⟨false, false, false, false, none⟩

/-- Configuration-establishing tail of `isl12020_probe`
(`rtc-isl12020.c:597-617`): state starts zeroed (`devm_kzalloc`), each
present property triggers the corresponding setter (errors are non-fatal
and ignored here as in the source), then the frequency output is always
programmed, with mode defaulting to 0 and battery flag to false. -/
def isl12020_probe_config (ch : Channel) (p : Props) : Channel × Isl12020Config :=
  let c0 : Isl12020Config := ⟨0, false, false, false, false⟩
  let s1 := if p.tse_present then
      (let r := isl12020_set_beta ch c0 true c0.btse c0.btsr
       (r.2.1, r.2.2.1))
    else (ch, c0)
  let s2 := if p.btse_present then
      (let r := isl12020_set_beta s1.1 s1.2 s1.2.tse true s1.2.btsr
       (r.2.1, r.2.2.1))
    else s1
  let s3 := if p.btsr_present then
      (let r := isl12020_set_beta s2.1 s2.2 s2.2.tse s2.2.btse true
       (r.2.1, r.2.2.1))
    else s2
  let fm := match p.freq_mode with
    | some m => m
    | none => 0
  let r := isl12020_set_freq_out s3.1 s3.2 fm p.freq_flag_present
  (r.2.1, r.2.2.1)

/-- Configuration-establishing tail of `isl12020m_probe`
(`rtc-isl12020m.c:675-690`): same shape, but the local default is
`u8 freq_out_mode = 1` — when no "frequency-output-mode" property is
present the mode written and mirrored is 1, not 0. -/
def isl12020m_probe_config (ch : Channel) (p : Props) : Channel × Isl12020mData :=
  let e0 : Isl12020mData := ⟨0, false, false, false, false, false, false⟩
  let s1 := if p.tse_present then
      (let r := isl12020m_beta ch e0 true e0.btse e0.btsr
       (r.2.1, r.2.2.1))
    else (ch, e0)
  let s2 := if p.btse_present then
      (let r := isl12020m_beta s1.1 s1.2 s1.2.tse true s1.2.btsr
       (r.2.1, r.2.2.1))
    else s1
  let s3 := if p.btsr_present then
      (let r := isl12020m_beta s2.1 s2.2 s2.2.tse s2.2.btse true
       (r.2.1, r.2.2.1))
    else s2
  let fm := match p.freq_mode with
    | some m => m
    | none => 1
  let r := isl12020m_set_freq_out s3.1 s3.2 fm p.freq_flag_present
  (r.2.1, r.2.2.1)

/-! ### C6: out-of-range frequency-output mode -/

/-- C6: for every parsed mode value above `FREQ_OUT_MODE_MAX` (15), the
frequency-output store fails with `-ERANGE`, leaving the channel and the
configuration unchanged and performing no register access at all (empty
access log). -/
theorem isl12020_freq_out_store_range (ch : Channel) (cfg : Isl12020Config)
    (v count : Nat) (hv : FREQ_OUT_MODE_MAX < v) :
    isl12020_freq_out_store ch cfg (0, v) count = (-ERANGE, ch, cfg, []) := by
  simp [isl12020_freq_out_store, Nat.not_le.mpr hv]

/-- Witness for C6 at mode 16 (maximum + 1). -/
theorem isl12020_freq_out_store_range_witness :
    isl12020_freq_out_store chOk cfg0 (0, 16) 2 = (-ERANGE, chOk, cfg0, []) :=
  isl12020_freq_out_store_range chOk cfg0 16 2 (by decide)

/-! ### C2: FOBATB battery-mode bit polarity -/

/-- C2 divergence: with prior INT byte 0 and every access succeeding, the
older variant's `isl12020m_set_freq_out` called with its flag true leaves
the FOBATB bit (bit 4) SET — it writes the flag directly, not inverted —
while `isl12020_set_freq_out` with battery mode true leaves the bit CLEAR
and with battery mode false leaves it set (the reversed-bit handling the
claim describes), and its in-memory mirror then reports battery mode true. -/
theorem isl12020m_fobatb_divergence :
    ((isl12020m_set_freq_out chOk d0 0 true).2.1.regs ISL_REG_CSR_INT) &&&
        ISL_BIT_CSR_INT_FOBATB = ISL_BIT_CSR_INT_FOBATB ∧
    ((isl12020_set_freq_out chOk cfg0 0 true).2.1.regs ISL_REG_CSR_INT) &&&
        ISL_BIT_CSR_INT_FOBATB = 0 ∧
    ((isl12020_set_freq_out chOk cfg0 0 false).2.1.regs ISL_REG_CSR_INT) &&&
        ISL_BIT_CSR_INT_FOBATB = ISL_BIT_CSR_INT_FOBATB ∧
    (isl12020_set_freq_out chOk cfg0 0 true).2.2.1.freq_out_bat = true := by decide

/-! ### C8: setter results surfaced to the caller -/

/-- C8 divergence: on a channel where every access succeeds,
`isl12020_bat_freq_out_store` parsing "0" (count 2) returns 0 — the parsed
boolean, not the count — although the operation succeeded; and on a channel
whose BETA read fails with -5, the older variant's `isl12020m_tse_store`
still returns the full count 2, discarding the -5 that `isl12020m_beta`
reported, while `isl12020_tse_store` surfaces the -5. -/
theorem isl_store_result_divergence :
    (isl12020_bat_freq_out_store chOk cfg0 (0, false) 2).1 = 0 ∧
    (0 : Int) ≠ 2 ∧
    (isl12020m_tse_store chReadFail d0 1 2).1 = 2 ∧
    (isl12020m_beta chReadFail d0 true d0.btse d0.btsr).1 = -5 ∧
    (isl12020_tse_store chReadFail cfg0 (0, true) 2).1 = -5 := by decide

/-! ### C9: defaults established at bind time -/

/-- C9 divergence: binding with no startup configuration and an error-free
channel leaves the newer variant exactly at the claimed defaults (all
compensation flags false, mode 0, battery output disabled) and its
temperature read failing with `-EOPNOTSUPP`; but the older variant's probe
leaves `freq_out_mode = 1` (32768 Hz), not 0, from its `u8 freq_out_mode =
1` initializer — its compensation flags are false and its temperature read
also fails with `-EOPNOTSUPP`. -/
theorem isl12020m_probe_default_divergence :
    (isl12020_probe_config chOk noProps).2 = ⟨0, false, false, false, false⟩ ∧
    (isl12020_read_temp chOk (isl12020_probe_config chOk noProps).2).1 = -EOPNOTSUPP ∧
    (isl12020m_probe_config chOk noProps).2.freq_out_mode = 1 ∧
    (isl12020m_probe_config chOk noProps).2.tse = false ∧
    (isl12020m_probe_config chOk noProps).2.btse = false ∧
    (isl12020m_probe_config chOk noProps).2.btsr = false ∧
    (isl12020m_probe_config chOk noProps).2.freq_out = false ∧
    (isl12020m_read_temp chOk (isl12020m_probe_config chOk noProps).2).1 = -EOPNOTSUPP := by
  decide
